import Mathlib

/-
Verification of the Remote-MCP repository: a shallow embedding of the
MCPRouter (capability registry and dispatcher, src/packages/server router)
and of the RemoteMCPClient (src/packages/client/src/client.ts), with
theorems settling the frozen behavioural claims.

Modelling conventions:
- JavaScript Map objects become association lists kept in insertion order;
  Map.set replaces the (unique) existing entry in place or appends a new one.
- JavaScript Set objects of strings become duplicate-free lists in insertion
  order.
- Async functions that may throw become Except-valued functions; a function
  whose body contains no throw returns with Except.ok.
- Zod schemas are embedded shallowly as parse functions Value -> Option Value;
  a parse returning none corresponds to schema.parse throwing a ZodError,
  which the dispatcher surfaces as RouterError.validationError.
- JavaScript numbers are modelled as integers; every number these claims
  exercise is a small integer on which double arithmetic agrees with integer
  arithmetic.  The only non-integral operation, division by a nonzero
  divisor, is not exercised by any claim.
-/

/-- A JSON-like runtime value (arguments, results, request payloads). -/
inductive Value where
  | vnull : Value
  | vbool : Bool → Value
  | num : Int → Value
  | str : String → Value
  | arr : List Value → Value
  | obj : List (String × Value) → Value

/-- The error taxonomy of the router.  In the source every failure is a thrown
Error distinguished by its message, except schema validation which throws a
ZodError; the constructors record which throw site fired. -/
inductive RouterError where
  | toolNotFound : String → RouterError
  | validationError : RouterError
  | resourceNotFound : String → RouterError
  | subscribeUnsupported : RouterError
  | notSubscribable : String → RouterError
  | promptNotFound : String → RouterError
  | missingArgument : String → RouterError
  | handlerError : String → RouterError

/-- One content item of a tool result: the source builds objects of the shape
`\x7btype: "text", text: ...\x7d`. -/
structure ContentItem where
  type : String
  text : String

/-- The result of a tool call (`CallToolResult` from the protocol types). -/
structure CallToolResult where
  content : List ContentItem

/-- A server notification: a method name plus parameters, as emitted by the
private _emitNotification helper of the router. -/
structure ServerNotification where
  method : String
  params : List (String × Value)

/-- Server identity (`Implementation` from the protocol types). -/
structure Implementation where
  name : String
  version : String

/-- Tools capability flags. -/
structure ToolsCapability where
  listChanged : Bool

/-- Resources capability flags.  In the source a user-provided partial object
may leave `subscribe` undefined, which reads as false. -/
structure ResourcesCapability where
  subscribe : Bool
  listChanged : Bool

/-- Prompts capability flags. -/
structure PromptsCapability where
  listChanged : Bool

/-- The negotiated server capabilities. `logging` and `experimental` model the
truthiness of the optional objects of the same names. -/
structure ServerCapabilities where
  tools : ToolsCapability
  resources : ResourcesCapability
  prompts : PromptsCapability
  logging : Bool
  experimental : Bool

/-- Constructor options of MCPRouter.  Absent capability groups are `none` and
get defaulted by the constructor. -/
structure MCPRouterOptions where
  name : String
  version : String
  capTools : Option ToolsCapability := none
  capResources : Option ResourcesCapability := none
  capPrompts : Option PromptsCapability := none
  logging : Bool := false
  experimental : Bool := false

/-- JS Map lookup: value of the entry with the given key. -/
def mapGet {A : Type} (m : List (String × A)) (k : String) : Option A :=
  match m with
  | [] => none
  | (k2, v) :: rest => if k2 = k then some v else mapGet rest k

/-- JS Map.set: replace the existing entry in place, else append. -/
def mapSet {A : Type} (m : List (String × A)) (k : String) (v : A) :
    List (String × A) :=
  match m with
  | [] => [(k, v)]
  | (k2, v2) :: rest =>
      if k2 = k then (k, v) :: rest else (k2, v2) :: mapSet rest k v

/-- JS Map.delete: remove the entry with the given key. -/
def mapDelete {A : Type} (m : List (String × A)) (k : String) :
    List (String × A) :=
  m.filter (fun p => p.1 ≠ k)

/-- The keys of a map in insertion order. -/
def mapKeys {A : Type} (m : List (String × A)) : List String :=
  m.map (fun p => p.1)

/-- JS Set.add for string sets. -/
def setAdd (s : List String) (x : String) : List String :=
  if x ∈ s then s else s ++ [x]

/-- JS Set.delete for string sets. -/
def setDelete (s : List String) (x : String) : List String :=
  s.filter (fun y => y ≠ x)

/-- A middleware, as invoked by the router: the source always passes the
identity continuation (`middleware(result, async (modified) => modified)`),
so an invocation is a function of the request value alone. -/
def Middleware : Type := Value → Except RouterError Value

/-- A tool definition: description, input schema (embedded as its parse
function) and middleware chain. -/
structure ToolDefinition where
  description : String
  schemaParse : Value → Option Value
  middlewares : List Middleware := []

/-- A registered tool: definition plus handler. -/
structure ToolEntry where
  definition : ToolDefinition
  handler : Value → Except RouterError CallToolResult

/-- A resource definition as registered with addResource. -/
structure ResourceDefinition where
  name : String
  description : Option String := none
  mimeType : Option String := none
  subscribe : Bool := false
  listHandler : Except RouterError (List Value)
  readHandler : Except RouterError (List Value)
  middlewares : List Middleware := []

/-- A prompt argument specification. -/
structure PromptArgumentSpec where
  name : String
  description : Option String := none
  required : Bool := false

/-- A prompt definition as registered with addPrompt. -/
structure PromptDefinition where
  description : Option String := none
  arguments : List PromptArgumentSpec := []
  middlewares : List Middleware := []

/-- A registered prompt: definition plus handler. -/
structure PromptEntry where
  definition : PromptDefinition
  handler : List (String × String) → Except RouterError (List Value)

/-- The state of an MCPRouter instance. -/
structure MCPRouter where
  tools : List (String × ToolEntry)
  resources : List (String × ResourceDefinition)
  prompts : List (String × PromptEntry)
  subscriptions : List (String × List String)
  implementation : Implementation
  capabilities : ServerCapabilities

/-- The capability defaulting performed by the MCPRouter constructor. -/
def mkCapabilities (options : MCPRouterOptions) : ServerCapabilities :=
  { tools := options.capTools.getD { listChanged := false }
    resources := options.capResources.getD { subscribe := false, listChanged := false }
    prompts := options.capPrompts.getD { listChanged := false }
    logging := options.logging
    experimental := options.experimental }

/-- The MCPRouter constructor: empty registries, identity and defaulted
capabilities fixed from the options. -/
def mkRouter (options : MCPRouterOptions) : MCPRouter :=
  { tools := []
    resources := []
    prompts := []
    subscriptions := []
    implementation := { name := options.name, version := options.version }
    capabilities := mkCapabilities options }

/-- Notification emitted by _emitToolListChanged. -/
def toolListChangedNotification : ServerNotification :=
  { method := "notifications/tools/list_changed", params := [] }

/-- Notification emitted by _emitResourceListChanged. -/
def resourceListChangedNotification : ServerNotification :=
  { method := "notifications/resources/list_changed", params := [] }

/-- Notification emitted by _emitPromptListChanged. -/
def promptListChangedNotification : ServerNotification :=
  { method := "notifications/prompts/list_changed", params := [] }

/-- addTool: unconditional Map.set plus a tool list-changed notification.
Returns the updated router and the notifications the call emitted. -/
def addTool (r : MCPRouter) (name : String) (d : ToolDefinition)
    (h : Value → Except RouterError CallToolResult) :
    MCPRouter × List ServerNotification :=
  ({ r with tools := mapSet r.tools name { definition := d, handler := h } },
   [toolListChangedNotification])

/-- addResource: unconditional Map.set plus a resource list-changed
notification. -/
def addResource (r : MCPRouter) (uri : String) (d : ResourceDefinition) :
    MCPRouter × List ServerNotification :=
  ({ r with resources := mapSet r.resources uri d },
   [resourceListChangedNotification])

/-- addPrompt: unconditional Map.set plus a prompt list-changed
notification. -/
def addPrompt (r : MCPRouter) (name : String) (d : PromptDefinition)
    (h : List (String × String) → Except RouterError (List Value)) :
    MCPRouter × List ServerNotification :=
  ({ r with prompts := mapSet r.prompts name { definition := d, handler := h } },
   [promptListChangedNotification])

/-- An observable event of a dispatch: which stages of the pipeline ran. -/
inductive TraceEvent where
  | middlewareRan : TraceEvent
  | handlerRan : TraceEvent

/-- The middleware loop of callTool (`for (const middleware of ...)`), each
stage consuming the prior stage output; the trace component records one event
per middleware actually invoked. -/
def runMiddlewares (mws : List Middleware) (v : Value) :
    Except RouterError Value × List TraceEvent :=
  match mws with
  | [] => (.ok v, [])
  | mw :: rest =>
      match mw v with
      | .error e => (.error e, [.middlewareRan])
      | .ok v2 =>
          let (res, tr) := runMiddlewares rest v2
          (res, .middlewareRan :: tr)

/-- callTool with an execution trace: lookup, schema.parse (a ZodError
becomes validationError), middleware chain, then the handler.  The first
component is exactly the behaviour of the source; the second records which
stages were invoked. -/
def callToolT (r : MCPRouter) (name : String) (args : Value) :
    Except RouterError CallToolResult × List TraceEvent :=
  match mapGet r.tools name with
  | none => (.error (.toolNotFound name), [])
  | some tool =>
      match tool.definition.schemaParse args with
      | none => (.error .validationError, [])
      | some validatedArgs =>
          match runMiddlewares tool.definition.middlewares validatedArgs with
          | (.error e, tr) => (.error e, tr)
          | (.ok result, tr) => (tool.handler result, tr ++ [.handlerRan])

/-- callTool as the caller observes it. -/
def callTool (r : MCPRouter) (name : String) (args : Value) :
    Except RouterError CallToolResult :=
  (callToolT r name args).1

/-- The middleware loop of readResource and getPrompt (no trace needed). -/
def applyMiddlewares (mws : List Middleware) (v : Value) :
    Except RouterError Value :=
  match mws with
  | [] => .ok v
  | mw :: rest =>
      match mw v with
      | .error e => .error e
      | .ok v2 => applyMiddlewares rest v2

/-- readResource: lookup, middleware fold over the one-field object holding
the uri (the folded value is discarded), then the zero-argument read
handler. -/
def readResource (r : MCPRouter) (uri : String) :
    Except RouterError (List Value) :=
  match mapGet r.resources uri with
  | none => .error (.resourceNotFound uri)
  | some resource =>
      match applyMiddlewares resource.middlewares
          (Value.obj [("uri", Value.str uri)]) with
      | .error e => .error e
      | .ok _ => resource.readHandler

/-- subscribeToResource: global capability check, registry lookup, per-resource
subscribable check; then ensure a set exists for the uri and add the uri to it
(the source records the uri itself as the subscriber identifier). -/
def subscribeToResource (r : MCPRouter) (uri : String) :
    Except RouterError MCPRouter :=
  if r.capabilities.resources.subscribe = false then
    .error .subscribeUnsupported
  else
    match mapGet r.resources uri with
    | none => .error (.resourceNotFound uri)
    | some resource =>
        if resource.subscribe = false then
          .error (.notSubscribable uri)
        else
          let subscribers := (mapGet r.subscriptions uri).getD []
          .ok { r with
                subscriptions :=
                  mapSet r.subscriptions uri (setAdd subscribers uri) }

/-- The state transformation of unsubscribeFromResource: delete the uri from
its subscriber set if present, dropping the entry when the set becomes
empty. -/
def unsubscribeFromResourceState (r : MCPRouter) (uri : String) : MCPRouter :=
  match mapGet r.subscriptions uri with
  | none => r
  | some subscribers =>
      let subscribers2 := setDelete subscribers uri
      if subscribers2.length = 0 then
        { r with subscriptions := mapDelete r.subscriptions uri }
      else
        { r with subscriptions := mapSet r.subscriptions uri subscribers2 }

/-- unsubscribeFromResource as the caller observes it: the body contains no
throw, so it always returns successfully. -/
def unsubscribeFromResource (r : MCPRouter) (uri : String) :
    Except RouterError MCPRouter :=
  .ok (unsubscribeFromResourceState r uri)

/-- Protocol version constant re-exported from the protocol SDK; its exact
value is external to this repository and irrelevant to the claims. -/
def LATEST_PROTOCOL_VERSION : String := "2024-11-05"

/-- The result shape of the initialize handler. -/
structure InitializeResult where
  id : String
  protocolVersion : String
  capabilities : ServerCapabilities
  serverInfo : Implementation

/-- The initialize handler of the router: a static snapshot; the request
argument is never consulted. -/
def initializeImpl (r : MCPRouter) (request : Value) : InitializeResult :=
  { id := "RemoteMCP"
    protocolVersion := LATEST_PROTOCOL_VERSION
    capabilities := r.capabilities
    serverInfo := r.implementation }

/-- z.number(): accepts exactly numeric values. -/
def zNumber : Value → Option Value
  | Value.num q => some (Value.num q)
  | _ => none

/-- z.string(): accepts exactly string values. -/
def zString : Value → Option Value
  | Value.str s => some (Value.str s)
  | _ => none

/-- z.enum([...]): accepts exactly the listed string literals. -/
def zEnum (choices : List String) : Value → Option Value
  | Value.str s => if s ∈ choices then some (Value.str s) else none
  | _ => none

/-- z.object(\x7b...\x7d): the input must be an object; every declared field must
be present and parse; undeclared keys are stripped (default zod behaviour). -/
def zObject (fields : List (String × (Value → Option Value))) :
    Value → Option Value
  | Value.obj kvs =>
      (fields.mapM (fun f =>
        ((mapGet kvs f.1).bind f.2).map (fun pv => (f.1, pv)))).map Value.obj
  | _ => none

/-- Field access on an object value (the destructuring in handlers). -/
def lookupField (v : Value) (k : String) : Option Value :=
  match v with
  | Value.obj kvs => mapGet kvs k
  | _ => none

/-- Read a numeric field. -/
def lookupNum (v : Value) (k : String) : Option Int :=
  match lookupField v k with
  | some (Value.num q) => some q
  | _ => none

/-- Read a string field. -/
def lookupStr (v : Value) (k : String) : Option String :=
  match lookupField v k with
  | some (Value.str s) => some s
  | _ => none

/-- JS template interpolation of a number, for the integral values the claims
exercise. -/
def numToString (n : Int) : String :=
  toString n

/-- The input schema of the example calculator tool:
z.object with operation in add, subtract, multiply, divide and numeric a, b. -/
def calculatorSchema : Value → Option Value :=
  zObject
    [("operation", zEnum ["add", "subtract", "multiply", "divide"]),
     ("a", zNumber),
     ("b", zNumber)]

/-- The example calculator handler: switch on operation, throwing on division
by zero, then render the result through template interpolation.  The two
catch-all branches are unreachable once the schema has validated the
arguments. -/
def calculatorHandler (args : Value) : Except RouterError CallToolResult :=
  match lookupStr args "operation", lookupNum args "a", lookupNum args "b" with
  | some operation, some a, some b =>
      if operation = "add" then
        .ok { content := [{ type := "text", text := numToString (a + b) }] }
      else if operation = "subtract" then
        .ok { content := [{ type := "text", text := numToString (a - b) }] }
      else if operation = "multiply" then
        .ok { content := [{ type := "text", text := numToString (a * b) }] }
      else if operation = "divide" then
        -- In JS this is double division; integer division is a modelling
        -- deviation on a branch no claim exercises beyond the zero check.
        if b = 0 then .error (.handlerError "Division by zero")
        else
          .ok { content := [{ type := "text", text := numToString (a / b) }] }
      else .error (.handlerError "unreachable: invalid operation")
  | _, _, _ => .error (.handlerError "unreachable: invalid arguments")

/-- The constructor options of the example server. -/
def exampleRouterOptions : MCPRouterOptions :=
  { name := "example-server"
    version := "1.0.0"
    capTools := some { listChanged := true }
    capResources := some { subscribe := true, listChanged := true }
    capPrompts := some { listChanged := true }
    logging := true }

/-- The calculator tool definition registered by the example server. -/
def calculatorDefinition : ToolDefinition :=
  { description := "Perform basic calculations"
    schemaParse := calculatorSchema }

/-- The example server router after registering the calculator tool. -/
def exampleRouter : MCPRouter :=
  (addTool (mkRouter exampleRouterOptions) "calculator"
    calculatorDefinition calculatorHandler).1

/-- A registry mutation: the state-changing operations of the router.  The
query operations (callTool, readResource, getPrompt, the list operations and
initialize) do not modify router state. -/
inductive RouterOp where
  | opAddTool : String → ToolDefinition →
      (Value → Except RouterError CallToolResult) → RouterOp
  | opAddResource : String → ResourceDefinition → RouterOp
  | opAddPrompt : String → PromptDefinition →
      (List (String × String) → Except RouterError (List Value)) → RouterOp
  | opSubscribe : String → RouterOp
  | opUnsubscribe : String → RouterOp

/-- Apply one operation; a failed subscribe leaves the state unchanged. -/
def applyOp (r : MCPRouter) : RouterOp → MCPRouter
  | .opAddTool name d h => (addTool r name d h).1
  | .opAddResource uri d => (addResource r uri d).1
  | .opAddPrompt name d h => (addPrompt r name d h).1
  | .opSubscribe uri =>
      match subscribeToResource r uri with
      | .ok r2 => r2
      | .error _ => r
  | .opUnsubscribe uri => unsubscribeFromResourceState r uri

/-- Run a sequence of operations; every reachable router state is
runOps (mkRouter options) ops for some options and ops. -/
def runOps (r : MCPRouter) (ops : List RouterOp) : MCPRouter :=
  ops.foldl applyOp r

/-- A transport failure of a forwarded remote call (an error thrown by the
remote procedure client link). -/
structure TransportError where
  message : String

/-- The remote procedure surface as the client sees it: each method name maps
a request payload to a result or a transport failure. -/
def Remote : Type := String → Value → Except TransportError Value

/-- The nine methods for which setupHandlers installs a request handler, in
registration order (each request schema corresponds to its method string). -/
def clientMethods : List String :=
  ["initialize", "tools/list", "tools/call", "resources/list",
   "resources/read", "resources/subscribe", "resources/unsubscribe",
   "prompts/list", "prompts/get"]

/-- The client session state: which methods have an installed handler.
Nothing in the client ever removes a handler once installed. -/
structure ClientState where
  handlers : List String

/-- setupHandlers: installs one handler per method. -/
def setupHandlers : ClientState :=
  { handlers := clientMethods }

/-- The shared body of every installed handler:
try to forward to the remote procedure and return its result; on failure
invoke the error callback with the request method and the error, and return
undefined.  The first component is the value returned to the local caller
(none models undefined); the second records the error-callback invocations. -/
def handleRemoteCall (remote : Remote) (method : String) (params : Value) :
    Option Value × List (String × TransportError) :=
  match remote method params with
  | .ok result => (some result, [])
  | .error e => (none, [(method, e)])

/-- Serve one inbound local request: if a handler is installed for the method
it runs (the session state is never modified); otherwise nothing is served.
The outer Option distinguishes served from unserved requests. -/
def serveRequest (cs : ClientState) (remote : Remote) (method : String)
    (params : Value) :
    Option (Option Value) × List (String × TransportError) × ClientState :=
  if method ∈ cs.handlers then
    let (res, errs) := handleRemoteCall remote method params
    (some res, errs, cs)
  else (none, [], cs)

theorem mapGet_mapSet_self {A : Type} (m : List (String × A)) (k : String)
    (v : A) : mapGet (mapSet m k v) k = some v := by
  induction m with
  | nil => simp [mapSet, mapGet]
  | cons p rest ih =>
      obtain ⟨k2, v2⟩ := p
      by_cases h : k2 = k <;> simp [mapSet, mapGet, h, ih]

theorem mapGet_mapSet_ne {A : Type} {m : List (String × A)} {k k2 : String}
    (v : A) (h : k2 ≠ k) : mapGet (mapSet m k v) k2 = mapGet m k2 := by
  induction m with
  | nil =>
      have hk : ¬(k = k2) := fun hh => h hh.symm
      simp [mapSet, mapGet, hk]
  | cons p rest ih =>
      obtain ⟨k3, v3⟩ := p
      by_cases h3 : k3 = k
      · subst h3
        have hk : ¬(k3 = k2) := fun hh => h hh.symm
        simp [mapSet, mapGet, hk]
      · simp [mapSet, mapGet, h3, ih]

theorem mapKeys_mapSet {A : Type} (m : List (String × A)) (k : String)
    (v : A) :
    mapKeys (mapSet m k v) =
      if (mapGet m k).isSome then mapKeys m else mapKeys m ++ [k] := by
  induction m with
  | nil => simp [mapSet, mapGet, mapKeys]
  | cons p rest ih =>
      obtain ⟨k2, v2⟩ := p
      by_cases h : k2 = k
      · simp [mapSet, mapGet, mapKeys, h]
      · have hstep : mapKeys (mapSet ((k2, v2) :: rest) k v) =
            k2 :: mapKeys (mapSet rest k v) := by
          simp [mapSet, h, mapKeys]
        have hg : mapGet ((k2, v2) :: rest) k = mapGet rest k := by
          simp [mapGet, h]
        rw [hstep, ih, hg]
        by_cases h2 : (mapGet rest k).isSome <;> simp [h2, mapKeys]

theorem mapSet_mapSet_self {A : Type} (m : List (String × A)) (k : String)
    (v : A) : mapSet (mapSet m k v) k v = mapSet m k v := by
  induction m with
  | nil => simp [mapSet]
  | cons p rest ih =>
      obtain ⟨k2, v2⟩ := p
      by_cases h : k2 = k <;> simp [mapSet, h, ih]

theorem mapGet_mapDelete_self {A : Type} (m : List (String × A))
    (k : String) : mapGet (mapDelete m k) k = none := by
  induction m with
  | nil => simp [mapDelete, mapGet]
  | cons p rest ih =>
      obtain ⟨k2, v2⟩ := p
      by_cases h : k2 = k
      · simpa [mapDelete, h] using ih
      · simpa [mapDelete, mapGet, h] using ih

theorem mem_of_mapGet_eq_some {A : Type} {m : List (String × A)} {k : String}
    {v : A} (h : mapGet m k = some v) : (k, v) ∈ m := by
  induction m with
  | nil => simp [mapGet] at h
  | cons p rest ih =>
      obtain ⟨k2, v2⟩ := p
      by_cases h2 : k2 = k
      · subst h2
        simp [mapGet] at h
        simp [h]
      · simp [mapGet, h2] at h
        exact List.mem_cons_of_mem _ (ih h)

theorem mem_mapSet {A : Type} {m : List (String × A)} {k : String} {v : A}
    {p : String × A} (h : p ∈ mapSet m k v) : p = (k, v) ∨ p ∈ m := by
  induction m with
  | nil => simpa [mapSet] using h
  | cons q rest ih =>
      obtain ⟨k2, v2⟩ := q
      by_cases h2 : k2 = k
      · simp [mapSet, h2] at h
        rcases h with h | h
        · exact Or.inl h
        · exact Or.inr (List.mem_cons_of_mem _ h)
      · simp [mapSet, h2] at h
        rcases h with h | h
        · exact Or.inr (by simp [h])
        · rcases ih h with h3 | h3
          · exact Or.inl h3
          · exact Or.inr (List.mem_cons_of_mem _ h3)

theorem mem_mapDelete {A : Type} {m : List (String × A)} {k : String}
    {p : String × A} (h : p ∈ mapDelete m k) : p ∈ m :=
  List.mem_of_mem_filter h

theorem setAdd_of_mem {s : List String} {x : String} (h : x ∈ s) :
    setAdd s x = s := by
  simp [setAdd, h]

theorem mem_setAdd_self (s : List String) (x : String) : x ∈ setAdd s x := by
  by_cases h : x ∈ s <;> simp [setAdd, h]

theorem not_mem_setDelete_self (s : List String) (x : String) :
    x ∉ setDelete s x := by
  simp [setDelete]

theorem setDelete_of_not_mem {s : List String} {x : String} (h : x ∉ s) :
    setDelete s x = s := by
  induction s with
  | nil => rfl
  | cons y rest ih =>
      simp at h
      simp [setDelete] at ih ⊢
      exact ⟨fun hy => h.1 hy.symm, ih h.2⟩

theorem setDelete_singleton_self (x : String) : setDelete [x] x = [] := by
  simp [setDelete]

/-- Shape of a successful subscribe: all three checks passed and only the
subscriptions map changed, gaining the uri as its own subscriber. -/
theorem subscribeToResource_eq_ok {r s1 : MCPRouter} {uri : String}
    (h : subscribeToResource r uri = .ok s1) :
    r.capabilities.resources.subscribe = true ∧
    (∃ res, mapGet r.resources uri = some res ∧ res.subscribe = true) ∧
    s1 = { r with
           subscriptions :=
             mapSet r.subscriptions uri
               (setAdd ((mapGet r.subscriptions uri).getD []) uri) } := by
  unfold subscribeToResource at h
  split at h
  · exact absurd h (by simp)
  · rename_i hc
    split at h
    · exact absurd h (by simp)
    · rename_i res hres
      split at h
      · exact absurd h (by simp)
      · rename_i hsub
        refine ⟨by simpa using hc, ⟨res, hres, by simpa using hsub⟩,
          ((Except.ok.injEq _ _).mp h).symm⟩

/-- The subscription-map invariant of reachable router states: every entry
records exactly its own uri as the single subscriber (the identifier the
source stores). -/
def SubsInv (r : MCPRouter) : Prop :=
  ∀ p ∈ r.subscriptions, p.2 = [p.1]

theorem subsInv_mkRouter (options : MCPRouterOptions) :
    SubsInv (mkRouter options) := by
  intro p hp
  simp [mkRouter] at hp

theorem subsInv_applyOp {r : MCPRouter} (h : SubsInv r) (op : RouterOp) :
    SubsInv (applyOp r op) := by
  cases op with
  | opAddTool name d hd =>
      intro p hp
      exact h p (by simpa [applyOp, addTool] using hp)
  | opAddResource uri d =>
      intro p hp
      exact h p (by simpa [applyOp, addResource] using hp)
  | opAddPrompt name d hd =>
      intro p hp
      exact h p (by simpa [applyOp, addPrompt] using hp)
  | opSubscribe uri =>
      simp only [applyOp]
      cases hs : subscribeToResource r uri with
      | error e => exact h
      | ok r2 =>
          obtain ⟨_, _, hshape⟩ := subscribeToResource_eq_ok hs
          subst hshape
          intro p hp
          simp only at hp
          have hval : setAdd ((mapGet r.subscriptions uri).getD []) uri = [uri] := by
            cases hg : mapGet r.subscriptions uri with
            | none => simp [setAdd]
            | some l =>
                have hl : l = [uri] := h (uri, l) (mem_of_mapGet_eq_some hg)
                subst hl
                simp [setAdd_of_mem]
          rw [hval] at hp
          rcases mem_mapSet hp with h2 | h2
          · simp [h2]
          · exact h p h2
  | opUnsubscribe uri =>
      simp only [applyOp]
      unfold unsubscribeFromResourceState
      cases hg : mapGet r.subscriptions uri with
      | none => exact h
      | some l =>
          have hl : l = [uri] := h (uri, l) (mem_of_mapGet_eq_some hg)
          subst hl
          simp only [setDelete_singleton_self, List.length_nil, if_pos]
          intro p hp
          exact h p (mem_mapDelete hp)

theorem subsInv_runOps {r : MCPRouter} (h : SubsInv r) (ops : List RouterOp) :
    SubsInv (runOps r ops) := by
  induction ops generalizing r with
  | nil => exact h
  | cons op ops ih => exact ih (subsInv_applyOp h op)

/-- Under the invariant, one unsubscribe removes the subscription entry of the
uri entirely. -/
theorem unsub_mapGet_none {r : MCPRouter} (h : SubsInv r) (uri : String) :
    mapGet (unsubscribeFromResourceState r uri).subscriptions uri = none := by
  unfold unsubscribeFromResourceState
  cases hg : mapGet r.subscriptions uri with
  | none => exact hg
  | some l =>
      have hl : l = [uri] := h (uri, l) (mem_of_mapGet_eq_some hg)
      subst hl
      simp only [setDelete_singleton_self, List.length_nil, if_pos]
      exact mapGet_mapDelete_self _ _

/-- An unsubscribe of a uri with no subscription entry leaves the state
unchanged. -/
theorem unsub_noop_of_none {r : MCPRouter} {uri : String}
    (h : mapGet r.subscriptions uri = none) :
    unsubscribeFromResourceState r uri = r := by
  simp [unsubscribeFromResourceState, h]

/-- Repeating unsubscribe is a no-op on the state, for every state. -/
theorem unsub_idem (r : MCPRouter) (uri : String) :
    unsubscribeFromResourceState (unsubscribeFromResourceState r uri) uri =
      unsubscribeFromResourceState r uri := by
  cases hg : mapGet r.subscriptions uri with
  | none =>
      rw [unsub_noop_of_none hg, unsub_noop_of_none hg]
  | some l =>
      have hstep : unsubscribeFromResourceState r uri =
          (if (setDelete l uri).length = 0 then
            { r with subscriptions := mapDelete r.subscriptions uri }
          else
            { r with
              subscriptions := mapSet r.subscriptions uri (setDelete l uri) }) := by
        simp [unsubscribeFromResourceState, hg]
      by_cases hlen : (setDelete l uri).length = 0
      · rw [hstep, if_pos hlen]
        exact unsub_noop_of_none (by simpa using mapGet_mapDelete_self r.subscriptions uri)
      · rw [hstep, if_neg hlen]
        have hg2 : mapGet
            (mapSet r.subscriptions uri (setDelete l uri)) uri =
            some (setDelete l uri) := mapGet_mapSet_self _ _ _
        have hdel2 : setDelete (setDelete l uri) uri = setDelete l uri :=
          setDelete_of_not_mem (not_mem_setDelete_self l uri)
        simp only [unsubscribeFromResourceState, hg2, hdel2, if_neg hlen,
          mapSet_mapSet_self]

/-- Repeating a successful subscribe returns the same state, for every
state. -/
theorem sub_idem {r s1 : MCPRouter} {uri : String}
    (h : subscribeToResource r uri = .ok s1) :
    subscribeToResource s1 uri = .ok s1 := by
  obtain ⟨hc, ⟨res, hres, hsub⟩, hshape⟩ := subscribeToResource_eq_ok h
  subst hshape
  have hg2 : mapGet
      (mapSet r.subscriptions uri
        (setAdd ((mapGet r.subscriptions uri).getD []) uri)) uri =
      some (setAdd ((mapGet r.subscriptions uri).getD []) uri) :=
    mapGet_mapSet_self _ _ _
  have hmem : uri ∈ setAdd ((mapGet r.subscriptions uri).getD []) uri :=
    mem_setAdd_self _ _
  simp [subscribeToResource, hc, hres, hsub, hg2, setAdd_of_mem hmem,
    mapSet_mapSet_self]

theorem applyOp_capabilities (r : MCPRouter) (op : RouterOp) :
    (applyOp r op).capabilities = r.capabilities := by
  cases op with
  | opAddTool name d hd => simp [applyOp, addTool]
  | opAddResource uri d => simp [applyOp, addResource]
  | opAddPrompt name d hd => simp [applyOp, addPrompt]
  | opSubscribe uri =>
      simp only [applyOp]
      cases hs : subscribeToResource r uri with
      | error e => rfl
      | ok r2 =>
          obtain ⟨_, _, hshape⟩ := subscribeToResource_eq_ok hs
          subst hshape
          rfl
  | opUnsubscribe uri =>
      simp only [applyOp]
      unfold unsubscribeFromResourceState
      cases hg : mapGet r.subscriptions uri with
      | none => rfl
      | some l =>
          by_cases hlen : (setDelete l uri).length = 0 <;> simp [hlen]

theorem applyOp_implementation (r : MCPRouter) (op : RouterOp) :
    (applyOp r op).implementation = r.implementation := by
  cases op with
  | opAddTool name d hd => simp [applyOp, addTool]
  | opAddResource uri d => simp [applyOp, addResource]
  | opAddPrompt name d hd => simp [applyOp, addPrompt]
  | opSubscribe uri =>
      simp only [applyOp]
      cases hs : subscribeToResource r uri with
      | error e => rfl
      | ok r2 =>
          obtain ⟨_, _, hshape⟩ := subscribeToResource_eq_ok hs
          subst hshape
          rfl
  | opUnsubscribe uri =>
      simp only [applyOp]
      unfold unsubscribeFromResourceState
      cases hg : mapGet r.subscriptions uri with
      | none => rfl
      | some l =>
          by_cases hlen : (setDelete l uri).length = 0 <;> simp [hlen]

theorem runOps_capabilities (r : MCPRouter) (ops : List RouterOp) :
    (runOps r ops).capabilities = r.capabilities := by
  induction ops generalizing r with
  | nil => rfl
  | cons op ops ih =>
      calc (runOps (applyOp r op) ops).capabilities
          = (applyOp r op).capabilities := ih _
        _ = r.capabilities := applyOp_capabilities r op

theorem runOps_implementation (r : MCPRouter) (ops : List RouterOp) :
    (runOps r ops).implementation = r.implementation := by
  induction ops generalizing r with
  | nil => rfl
  | cons op ops ih =>
      calc (runOps (applyOp r op) ops).implementation
          = (applyOp r op).implementation := ih _
        _ = r.implementation := applyOp_implementation r op

/-- Claim C1: for every registered tool and every argument value that does not
conform to the stored input schema, callTool fails with ValidationError and
the trace is empty: no middleware stage and no handler is invoked. -/
theorem callTool_invalid_args_validation_error
    (r : MCPRouter) (name : String) (tool : ToolEntry) (args : Value)
    (hfound : mapGet r.tools name = some tool)
    (hparse : tool.definition.schemaParse args = none) :
    callToolT r name args = (.error .validationError, []) := by
  simp [callToolT, hfound, hparse]

/-- Witness for C1: the example calculator rejects a non-object argument with
ValidationError and runs no pipeline stage. -/
theorem callTool_invalid_args_validation_error_witness :
    mapGet exampleRouter.tools "calculator" =
      some { definition := calculatorDefinition, handler := calculatorHandler } ∧
    calculatorDefinition.schemaParse (Value.str "nope") = none ∧
    callToolT exampleRouter "calculator" (Value.str "nope") =
      (.error .validationError, []) :=
  ⟨rfl, rfl,
    callTool_invalid_args_validation_error exampleRouter "calculator"
      { definition := calculatorDefinition, handler := calculatorHandler }
      (Value.str "nope") rfl rfl⟩

/-- A plain router with default capabilities and no registrations. -/
def c2Router : MCPRouter := mkRouter { name := "server", version := "1.0.0" }

/-- Counterexample to C2 as stated: on an unregistered uri,
unsubscribeFromResource returns successfully (it never throws), and with the
default capabilities subscribeToResource fails with Unsupported, not
NotFound. -/
theorem unregistered_uri_notfound_cex :
    mapGet c2Router.resources "missing" = none ∧
    subscribeToResource c2Router "missing" = .error .subscribeUnsupported ∧
    unsubscribeFromResource c2Router "missing" = .ok c2Router :=
  ⟨rfl, rfl, rfl⟩

/-- Claim C2 (amended): for every unregistered uri, readResource fails with
NotFound; subscribeToResource fails with NotFound provided the global
subscribe capability is enabled; unsubscribeFromResource never fails and is a
no-op when the uri has no subscription entry. -/
theorem unregistered_uri_behavior
    (r : MCPRouter) (uri : String) (h : mapGet r.resources uri = none) :
    readResource r uri = .error (.resourceNotFound uri) ∧
    (r.capabilities.resources.subscribe = true →
      subscribeToResource r uri = .error (.resourceNotFound uri)) ∧
    unsubscribeFromResource r uri = .ok (unsubscribeFromResourceState r uri) ∧
    (mapGet r.subscriptions uri = none →
      unsubscribeFromResourceState r uri = r) := by
  refine ⟨?_, ?_, rfl, fun h2 => unsub_noop_of_none h2⟩
  · simp [readResource, h]
  · intro hc
    simp [subscribeToResource, hc, h]

/-- Witness for C2 (amended), on the example router, whose subscribe
capability is enabled. -/
theorem unregistered_uri_behavior_witness :
    readResource exampleRouter "missing" =
      .error (.resourceNotFound "missing") ∧
    subscribeToResource exampleRouter "missing" =
      .error (.resourceNotFound "missing") ∧
    unsubscribeFromResource exampleRouter "missing" =
      .ok (unsubscribeFromResourceState exampleRouter "missing") ∧
    unsubscribeFromResourceState exampleRouter "missing" = exampleRouter := by
  obtain ⟨h1, h2, h3, h4⟩ := unregistered_uri_behavior exampleRouter "missing" rfl
  exact ⟨h1, h2 rfl, h3, h4 rfl⟩

/-- Counterexample to C3 as stated: with the string arguments written in the
claim, schema validation rejects the call, so it does not return the text
item 5. -/
theorem calculator_string_args_cex :
    callTool exampleRouter "calculator"
      (Value.obj [("operation", Value.str "add"),
                  ("a", Value.str "2"), ("b", Value.str "3")]) =
      .error .validationError := rfl

/-- Claim C3 (amended): with numeric arguments, as the schema requires, the
add call returns the single text item 5, and dividing one by zero fails with
the division-by-zero error rather than returning a numeric result. -/
theorem calculator_scenario :
    callTool exampleRouter "calculator"
      (Value.obj [("operation", Value.str "add"),
                  ("a", Value.num 2), ("b", Value.num 3)]) =
      .ok { content := [{ type := "text", text := "5" }] } ∧
    callTool exampleRouter "calculator"
      (Value.obj [("operation", Value.str "divide"),
                  ("a", Value.num 1), ("b", Value.num 0)]) =
      .error (.handlerError "Division by zero") :=
  ⟨rfl, rfl⟩

/-- Options of a demo router whose global subscribe capability is enabled. -/
def demoOptions : MCPRouterOptions :=
  { name := "demo", version := "1.0.0",
    capResources := some { subscribe := true, listChanged := false } }

/-- A subscribable demo resource. -/
def demoResource : ResourceDefinition :=
  { name := "doc", subscribe := true, listHandler := .ok [], readHandler := .ok [] }

/-- A demo resource whose own subscribable flag is off. -/
def demoResourceNoSub : ResourceDefinition :=
  { name := "doc2", subscribe := false, listHandler := .ok [], readHandler := .ok [] }

/-- A demo router with one subscribable and one non-subscribable resource. -/
def demoRouter : MCPRouter :=
  (addResource (addResource (mkRouter demoOptions) "doc://a" demoResource).1
    "doc://b" demoResourceNoSub).1

/-- The demo router after one successful subscription to doc://a. -/
def demoRouterSubscribed : MCPRouter :=
  { demoRouter with subscriptions := [("doc://a", ["doc://a"])] }

/-- Claim C4: subscribeToResource checks Unsupported (global capability),
then NotFound, then Unsupported (per-resource flag), in that order; both
subscribe and unsubscribe are idempotent, and unsubscribe never fails. -/
theorem subscribe_error_order_and_idempotence (r : MCPRouter) (uri : String) :
    (r.capabilities.resources.subscribe = false →
      subscribeToResource r uri = .error .subscribeUnsupported) ∧
    (r.capabilities.resources.subscribe = true →
      mapGet r.resources uri = none →
      subscribeToResource r uri = .error (.resourceNotFound uri)) ∧
    (∀ res, r.capabilities.resources.subscribe = true →
      mapGet r.resources uri = some res → res.subscribe = false →
      subscribeToResource r uri = .error (.notSubscribable uri)) ∧
    (∀ s1, subscribeToResource r uri = .ok s1 →
      subscribeToResource s1 uri = .ok s1) ∧
    unsubscribeFromResource r uri = .ok (unsubscribeFromResourceState r uri) ∧
    unsubscribeFromResourceState (unsubscribeFromResourceState r uri) uri =
      unsubscribeFromResourceState r uri := by
  refine ⟨fun h => by simp [subscribeToResource, h],
          fun hc hn => by simp [subscribeToResource, hc, hn],
          fun res hc hr hs => by simp [subscribeToResource, hc, hr, hs],
          fun s1 h => sub_idem h, rfl, unsub_idem r uri⟩

/-- Witness for C4: each failure case and both idempotence cases at concrete
routers. -/
theorem subscribe_error_order_and_idempotence_witness :
    subscribeToResource c2Router "doc://a" = .error .subscribeUnsupported ∧
    subscribeToResource demoRouter "doc://missing" =
      .error (.resourceNotFound "doc://missing") ∧
    subscribeToResource demoRouter "doc://b" =
      .error (.notSubscribable "doc://b") ∧
    subscribeToResource demoRouterSubscribed "doc://a" =
      .ok demoRouterSubscribed ∧
    unsubscribeFromResource demoRouter "doc://a" =
      .ok (unsubscribeFromResourceState demoRouter "doc://a") ∧
    unsubscribeFromResourceState
        (unsubscribeFromResourceState demoRouter "doc://a") "doc://a" =
      unsubscribeFromResourceState demoRouter "doc://a" := by
  refine ⟨(subscribe_error_order_and_idempotence c2Router "doc://a").1 rfl,
    (subscribe_error_order_and_idempotence demoRouter "doc://missing").2.1 rfl rfl,
    (subscribe_error_order_and_idempotence demoRouter "doc://b").2.2.1
      demoResourceNoSub rfl rfl rfl,
    (subscribe_error_order_and_idempotence demoRouter "doc://a").2.2.2.1
      demoRouterSubscribed ?_,
    (subscribe_error_order_and_idempotence demoRouter "doc://a").2.2.2.2.1,
    (subscribe_error_order_and_idempotence demoRouter "doc://a").2.2.2.2.2⟩
  rfl

/-- The mutation sequence used by the C5 witness. -/
def witnessOps : List RouterOp :=
  [.opAddResource "doc://a" demoResource, .opSubscribe "doc://a"]

/-- Claim C5: in every state reachable by any sequence of registry
operations the subscriptions map has no empty subscriber set; unsubscribing
deletes the subscription entry of the uri entirely, and a repeated
unsubscribe is a no-op rather than an error. -/
theorem subscriptions_no_empty_entries
    (options : MCPRouterOptions) (ops : List RouterOp) (uri : String) :
    (∀ p ∈ (runOps (mkRouter options) ops).subscriptions, p.2 ≠ []) ∧
    mapGet (unsubscribeFromResourceState
        (runOps (mkRouter options) ops) uri).subscriptions uri = none ∧
    unsubscribeFromResourceState
        (unsubscribeFromResourceState (runOps (mkRouter options) ops) uri) uri =
      unsubscribeFromResourceState (runOps (mkRouter options) ops) uri := by
  have hinv : SubsInv (runOps (mkRouter options) ops) :=
    subsInv_runOps (subsInv_mkRouter options) ops
  refine ⟨fun p hp => ?_, unsub_mapGet_none hinv uri, unsub_idem _ uri⟩
  rw [hinv p hp]
  simp

/-- Witness for C5: a concrete reachable state holding one subscription. -/
theorem subscriptions_no_empty_entries_witness :
    ("doc://a", ["doc://a"]).2 ≠ ([] : List String) ∧
    mapGet (unsubscribeFromResourceState
        (runOps (mkRouter demoOptions) witnessOps) "doc://a").subscriptions
        "doc://a" = none ∧
    unsubscribeFromResourceState
        (unsubscribeFromResourceState
          (runOps (mkRouter demoOptions) witnessOps) "doc://a") "doc://a" =
      unsubscribeFromResourceState
        (runOps (mkRouter demoOptions) witnessOps) "doc://a" := by
  obtain ⟨h1, h2, h3⟩ :=
    subscriptions_no_empty_entries demoOptions witnessOps "doc://a"
  refine ⟨h1 ("doc://a", ["doc://a"]) ?_, h2, h3⟩
  have hsubs : (runOps (mkRouter demoOptions) witnessOps).subscriptions =
      [("doc://a", ["doc://a"])] := rfl
  rw [hsubs]
  exact List.mem_singleton.mpr rfl

/-- A demo prompt definition and handler for the C6 witness. -/
def demoPromptDefinition : PromptDefinition := {}

/-- A demo prompt handler. -/
def demoPromptHandler :
    List (String × String) → Except RouterError (List Value) :=
  fun _ => .ok []

/-- Claim C6: addTool, addResource and addPrompt are unconditional upserts:
the key maps to the new entry, the key order (hence the position of an
existing key) is unchanged on re-registration, all other entries are
untouched, and every call emits exactly the corresponding list-changed
notification. -/
theorem add_registration_upsert_notifies
    (r : MCPRouter) (name uri pname : String) (d : ToolDefinition)
    (h : Value → Except RouterError CallToolResult) (rd : ResourceDefinition)
    (pd : PromptDefinition)
    (ph : List (String × String) → Except RouterError (List Value)) :
    (mapGet (addTool r name d h).1.tools name =
        some { definition := d, handler := h } ∧
      mapKeys (addTool r name d h).1.tools =
        (if (mapGet r.tools name).isSome then mapKeys r.tools
         else mapKeys r.tools ++ [name]) ∧
      (∀ k, k ≠ name →
        mapGet (addTool r name d h).1.tools k = mapGet r.tools k) ∧
      (addTool r name d h).2 = [toolListChangedNotification]) ∧
    (mapGet (addResource r uri rd).1.resources uri = some rd ∧
      mapKeys (addResource r uri rd).1.resources =
        (if (mapGet r.resources uri).isSome then mapKeys r.resources
         else mapKeys r.resources ++ [uri]) ∧
      (∀ k, k ≠ uri →
        mapGet (addResource r uri rd).1.resources k = mapGet r.resources k) ∧
      (addResource r uri rd).2 = [resourceListChangedNotification]) ∧
    (mapGet (addPrompt r pname pd ph).1.prompts pname =
        some { definition := pd, handler := ph } ∧
      mapKeys (addPrompt r pname pd ph).1.prompts =
        (if (mapGet r.prompts pname).isSome then mapKeys r.prompts
         else mapKeys r.prompts ++ [pname]) ∧
      (∀ k, k ≠ pname →
        mapGet (addPrompt r pname pd ph).1.prompts k = mapGet r.prompts k) ∧
      (addPrompt r pname pd ph).2 = [promptListChangedNotification]) :=
  ⟨⟨mapGet_mapSet_self _ _ _, mapKeys_mapSet _ _ _,
    fun _ hk => mapGet_mapSet_ne _ hk, rfl⟩,
   ⟨mapGet_mapSet_self _ _ _, mapKeys_mapSet _ _ _,
    fun _ hk => mapGet_mapSet_ne _ hk, rfl⟩,
   ⟨mapGet_mapSet_self _ _ _, mapKeys_mapSet _ _ _,
    fun _ hk => mapGet_mapSet_ne _ hk, rfl⟩⟩

/-- Witness for C6 at concrete registrations on the demo router. -/
theorem add_registration_upsert_notifies_witness :
    mapGet (addTool demoRouter "t" calculatorDefinition
        calculatorHandler).1.tools "x" = mapGet demoRouter.tools "x" ∧
    (addTool demoRouter "t" calculatorDefinition calculatorHandler).2 =
      [toolListChangedNotification] ∧
    mapGet (addResource demoRouter "u" demoResource).1.resources "x" =
      mapGet demoRouter.resources "x" ∧
    (addResource demoRouter "u" demoResource).2 =
      [resourceListChangedNotification] ∧
    mapGet (addPrompt demoRouter "p" demoPromptDefinition
        demoPromptHandler).1.prompts "x" = mapGet demoRouter.prompts "x" ∧
    (addPrompt demoRouter "p" demoPromptDefinition demoPromptHandler).2 =
      [promptListChangedNotification] := by
  obtain ⟨⟨_, _, t3, t4⟩, ⟨_, _, r3, r4⟩, ⟨_, _, p3, p4⟩⟩ :=
    add_registration_upsert_notifies demoRouter "t" "u" "p"
      calculatorDefinition calculatorHandler demoResource
      demoPromptDefinition demoPromptHandler
  exact ⟨t3 "x" (by decide), t4, r3 "x" (by decide), r4,
    p3 "x" (by decide), p4⟩

/-- Claim C7: on every reachable state of a constructed router, the
initialize handler gives the same result for any two requests, and that
result is the static snapshot fixed by the constructor options. -/
theorem initialize_static_snapshot
    (options : MCPRouterOptions) (ops : List RouterOp) (req1 req2 : Value) :
    initializeImpl (runOps (mkRouter options) ops) req1 =
      initializeImpl (runOps (mkRouter options) ops) req2 ∧
    initializeImpl (runOps (mkRouter options) ops) req1 =
      { id := "RemoteMCP"
        protocolVersion := LATEST_PROTOCOL_VERSION
        capabilities := mkCapabilities options
        serverInfo := { name := options.name, version := options.version } } := by
  refine ⟨rfl, ?_⟩
  simp [initializeImpl, runOps_capabilities, runOps_implementation, mkRouter]

/-- Claim C8: when a forwarded remote call fails, the installed error callback
receives the request method name and the transport error; the session state is
unchanged, so handlers for subsequent requests remain installed and any
subsequent request whose remote call succeeds is still served. -/
theorem client_error_callback_session_survives
    (e : TransportError) (p : Value) (remote2 : Remote) (m : String)
    (q res : Value) :
    serveRequest setupHandlers (fun _ _ => .error e) "tools/list" p =
      (some none, [("tools/list", e)], setupHandlers) ∧
    (m ∈ clientMethods → remote2 m q = .ok res →
      serveRequest setupHandlers remote2 m q =
        (some (some res), [], setupHandlers)) := by
  constructor
  · rfl
  · intro hm hr
    simp [serveRequest, setupHandlers, hm, handleRemoteCall, hr]

/-- Witness for C8: an unreachable endpoint on tools list, then a served
request against a working endpoint. -/
theorem client_error_callback_session_survives_witness :
    serveRequest setupHandlers
        (fun _ _ => .error { message := "ECONNREFUSED" }) "tools/list"
        (Value.obj []) =
      (some none, [("tools/list", { message := "ECONNREFUSED" })],
        setupHandlers) ∧
    serveRequest setupHandlers
        (fun _ _ => .ok (Value.obj [("tools", Value.arr [])])) "tools/list"
        (Value.obj []) =
      (some (some (Value.obj [("tools", Value.arr [])])), [],
        setupHandlers) := by
  obtain ⟨h1, h2⟩ :=
    client_error_callback_session_survives { message := "ECONNREFUSED" }
      (Value.obj []) (fun _ _ => .ok (Value.obj [("tools", Value.arr [])]))
      "tools/list" (Value.obj []) (Value.obj [("tools", Value.arr [])])
  exact ⟨h1, h2 (by decide) rfl⟩

/-- Claim C9: when a registered resource has middlewares that all return
normally, readResource returns exactly the read-handler output; the folded
middleware value is discarded, so the result does not depend on it. -/
theorem readResource_ignores_middleware_value
    (r : MCPRouter) (uri : String) (res : ResourceDefinition) (v : Value)
    (hfound : mapGet r.resources uri = some res)
    (hmw : applyMiddlewares res.middlewares
        (Value.obj [("uri", Value.str uri)]) = .ok v) :
    readResource r uri = res.readHandler := by
  simp [readResource, hfound, hmw]

/-- A resource whose middleware rewrites the context to an unrelated value. -/
def c9Resource : ResourceDefinition :=
  { name := "doc", listHandler := .ok [],
    readHandler := .ok [Value.str "content"],
    middlewares := [fun _ => .ok (Value.str "transformed")] }

/-- A router holding the middleware-transforming resource. -/
def c9Router : MCPRouter :=
  (addResource (mkRouter demoOptions) "doc://m" c9Resource).1

/-- Witness for C9: despite the transforming middleware, the read result is
the read-handler output. -/
theorem readResource_ignores_middleware_value_witness :
    readResource c9Router "doc://m" = .ok [Value.str "content"] :=
  readResource_ignores_middleware_value c9Router "doc://m" c9Resource
    (Value.str "transformed") rfl rfl

/-- Claim C10: for each of the nine registered methods, a failing forwarded
call makes the handler invoke the error callback with the method and the
error and return undefined to the local caller instead of re-raising. -/
theorem client_handlers_swallow_errors
    (m : String) (hm : m ∈ clientMethods) (remote : Remote) (p : Value)
    (e : TransportError) (he : remote m p = .error e) :
    serveRequest setupHandlers remote m p =
      (some none, [(m, e)], setupHandlers) := by
  simp [serveRequest, setupHandlers, hm, handleRemoteCall, he]

/-- Witness for C10 at a concrete method and failing remote. -/
theorem client_handlers_swallow_errors_witness :
    serveRequest setupHandlers (fun _ _ => .error { message := "unreachable" })
        "resources/read" (Value.obj [("uri", Value.str "doc://a")]) =
      (some none, [("resources/read", { message := "unreachable" })],
        setupHandlers) :=
  client_handlers_swallow_errors "resources/read" (by decide) _
    (Value.obj [("uri", Value.str "doc://a")]) { message := "unreachable" } rfl
